import Mathlib

/-!
Shallow embedding of the core of redis-go-to-master (main.go, YAML-config
revision): the health probe loop `getMasterAddr`, the elector loop
`followMaster` (retry loop plus publish step), the forwarder accept path
in `ServePort`, the `proxy` dial path, the `pipe` copy task, and the
startup validation in `main`.  Network effects are parameterised by a
probe world assigning each (timeout, node) pair its observable outcome.
-/

namespace RGTM

/-- Mirrors Go `net.TCPAddr` as used by the program: the elector compares
addresses by IP bytes (`string(addr.IP)`) and by port. -/
structure TCPAddr where
  ip : List Nat
  port : Int
deriving DecidableEq, Repr

/-- Mirrors Go `bytes.HasPrefix` on character lists. -/
def charsStartWith : List Char → List Char → Bool
  | [], _ => true
  | _ :: _, [] => false
  | a :: as, b :: bs => a == b && charsStartWith as bs

/-- Mirrors Go `bytes.Contains needle hay`: does `needle` occur contiguously
inside `hay`? -/
def charsContains (needle : List Char) : List Char → Bool
  | [] => charsStartWith needle []
  | c :: t => charsStartWith needle (c :: t) || charsContains needle t

/-- `containsSub hay needle` mirrors `bytes.Contains(hay, needle)` from
`getMasterAddr`, on the reply modelled as a string of bytes. -/
def containsSub (hay needle : String) : Bool :=
  charsContains needle.data hay.data

/-- The literal searched for in `getMasterAddr` to confirm a master. -/
def roleMasterMarker : String := "role:master"

/-- The literal searched for in `getMasterAddr` to flag an auth problem. -/
def noAuthMarker : String := "-NOAUTH"

/-- Structured log messages emitted by the embedded functions, one
constructor per `log.*` call site in the modelled core. -/
inductive LogEvent where
  | cantConnect (node : String) (timeout : Nat)
  | cantRead (node : String)
  | noauthWarn (node : String) (port : String)
  | noMasters (port : String)
  | changingMaster (a : TCPAddr)
  | dialError
deriving DecidableEq, Repr

/-- A call to the logger: `printf` mirrors `log.Printf`/`log.Println`
(non-fatal); `fatalf` mirrors `log.Fatal*` (terminates the process). -/
inductive LogCall where
  | printf (e : LogEvent)
  | fatalf (e : LogEvent)
deriving DecidableEq, Repr

/-- What a node that accepted the probe connection sends back: the bytes
delivered by the single `conn.Read` (the slice `b[:l]`), whether that read
also returned an error, and the `conn.RemoteAddr()` of the socket. -/
structure ProbeReply where
  reply : String
  readErr : Bool
  addr : TCPAddr
deriving DecidableEq, Repr

/-- Outcome of one probe dial: the dial failed, or a connection was made
and the probe observed a `ProbeReply`. -/
inductive ProbeOutcome where
  | dialErr
  | conn (r : ProbeReply)
deriving DecidableEq, Repr

/-- The network environment of one election cycle: for a dial timeout (in
seconds) and a node name, the outcome the probe observes. -/
def ProbeWorld := Nat → String → ProbeOutcome

/-- Result of one `getMasterAddr` run: the returned address, the log calls
made, and the nodes actually dialed, in order. -/
structure GMRun where
  addr : Option TCPAddr
  logs : List LogCall
  probed : List String
deriving DecidableEq, Repr

/-- Embedding of `getMasterAddr(port, timeout)` (main.go, YAML revision):
walk `config.Nodes` in order; on dial failure log and continue; otherwise
send the probe, read once, log a read error non-fatally, return the
remote address as soon as the reply contains `role:master`, log a NOAUTH
warning when the reply contains `-NOAUTH`, and fall through to the next
node; return nil after the last node. -/
def getMasterAddr (world : ProbeWorld) (port : String) (timeout : Nat) :
    List String → GMRun
  | [] => ⟨none, [], []⟩
  | node :: rest =>
    match world timeout node with
    | .dialErr =>
      let r := getMasterAddr world port timeout rest
      ⟨r.addr, .printf (.cantConnect node timeout) :: r.logs, node :: r.probed⟩
    | .conn pr =>
      let readLogs : List LogCall :=
        if pr.readErr then [.printf (.cantRead node)] else []
      if containsSub pr.reply roleMasterMarker then
        ⟨some pr.addr, readLogs, [node]⟩
      else
        let authLogs : List LogCall :=
          if containsSub pr.reply noAuthMarker
          then [.printf (.noauthWarn node port)] else []
        let r := getMasterAddr world port timeout rest
        ⟨r.addr, readLogs ++ authLogs ++ r.logs, node :: r.probed⟩

/-- Specification-side view of one outcome: does this node answer as a
master (connection made and reply contains `role:master`)? -/
def isMasterOutcome : ProbeOutcome → Bool
  | .dialErr => false
  | .conn r => containsSub r.reply roleMasterMarker

/-- Specification-side view: the resolved address carried by an outcome. -/
def outcomeAddr : ProbeOutcome → Option TCPAddr
  | .dialErr => none
  | .conn r => some r.addr

/-- Embedding of the retry loop in `followMaster`:
`for attempt := 1; newAddr == nil && attempt <= 3; attempt++` calling
`getMasterAddr(rp.port, attempt)`.  Returns the final `newAddr` and the
list of attempt numbers (= dial timeouts in seconds) actually run. -/
def attemptLoop (world : ProbeWorld) (port : String) (nodesL : List String)
    (attempt : Nat) (cur : Option TCPAddr) : Option TCPAddr × List Nat :=
  if h : cur = none ∧ attempt ≤ 3 then
    let na := (getMasterAddr world port attempt nodesL).addr
    let r := attemptLoop world port nodesL (attempt + 1) na
    (r.1, attempt :: r.2)
  else (cur, [])
termination_by 4 - attempt
decreasing_by
  obtain ⟨-, h2⟩ := h
  omega

/-- One full determination of `followMaster`: the retry loop started at
attempt 1 with `newAddr = nil`. -/
def determineMaster (world : ProbeWorld) (port : String)
    (nodesL : List String) : Option TCPAddr × List Nat :=
  attemptLoop world port nodesL 1 none

/-- The change test in `followMaster`:
`rp.masterAddr == nil || string(rp.masterAddr.IP) != string(newAddr.IP) ||
rp.masterAddr.Port != newAddr.Port`. -/
def addrChanged (prev : Option TCPAddr) (na : TCPAddr) : Bool :=
  match prev with
  | none => true
  | some p => decide (¬ p.ip = na.ip) || decide (¬ p.port = na.port)

/-- The tail of one `followMaster` iteration after the determination: log
"No masters found" when the determination is nil, log "Changing master"
when the determined address differs from the published one, then store the
determined address (under the write lock) as the new published address. -/
def publishStep (port : String) (prev newAddr : Option TCPAddr) :
    Option TCPAddr × List LogCall :=
  match newAddr with
  | none => (none, [.printf (.noMasters port)])
  | some a =>
    (some a, if addrChanged prev a then [.printf (.changingMaster a)] else [])

/-- One complete `followMaster` poll: determine, then publish. -/
def followPoll (world : ProbeWorld) (port : String) (nodesL : List String)
    (prev : Option TCPAddr) : Option TCPAddr × List LogCall :=
  publishStep port prev (determineMaster world port nodesL).1

/-- A sequence of `followMaster` polls, driven by the list of addresses the
successive determinations produce; yields the final published address and
the concatenated log calls. -/
def pollRun (port : String) (prev : Option TCPAddr) :
    List (Option TCPAddr) → Option TCPAddr × List LogCall
  | [] => (prev, [])
  | d :: ds =>
    let step := publishStep port prev d
    let rest := pollRun port step.1 ds
    (rest.1, step.2 ++ rest.2)

/-- Is this log call a "Changing master" line? -/
def isChangingLog : LogCall → Bool
  | .printf (.changingMaster _) => true
  | _ => false

/-- Number of "Changing master" lines in a log trace. -/
def countChanging (logs : List LogCall) : Nat :=
  (logs.filter isChangingLog).length

/-- Modulus of the Go `uint64` counter `connectionsProxied`. -/
def U64 : Nat := 2 ^ 64

/-- Modulus of the Go `uint32` counter `pipesActive`. -/
def U32 : Nat := 2 ^ 32

/-- The two process-wide counters of `Stats`, as machine integers mod their
width. -/
structure Stats where
  connectionsProxied : Nat
  pipesActive : Nat
deriving DecidableEq, Repr

/-- What `ServePort` does with an accepted connection. -/
inductive AcceptAction where
  | closed
  | dispatched (target : TCPAddr)
deriving DecidableEq, Repr

/-- Outcome of the `io.Copy` of one pipe: clean end of stream or a
read/write error; in either case `io.Copy` returns to `pipe`. -/
inductive CopyOutcome where
  | eof
  | copyErr
deriving DecidableEq, Repr

/-- Outcome of the `d.Dial` in `proxy`. -/
inductive DialOutcome where
  | fail
  | ok
deriving DecidableEq, Repr

/-- Observable state of one accepted connection and the globals it touches:
the counters, which dial was attempted, whether the client-facing and the
master-facing sockets are open, how many copy tasks were started, and the
log calls made. -/
structure SessionRun where
  stats : Stats
  dialedAddr : Option TCPAddr
  dialAttempts : Nat
  localOpen : Bool
  remoteOpen : Bool
  pipesStarted : Nat
  logs : List LogCall
deriving DecidableEq, Repr

/-- State right after `AcceptTCP` returns a connection: client socket open,
no outbound socket, nothing dialed or logged yet. -/
def mkSession (stats : Stats) : SessionRun :=
  ⟨stats, none, 0, true, false, 0, []⟩

/-- Entry of `pipe`: `atomic.AddUint32(&globalStats.pipesActive, 1)`. -/
def pipeEnter (s : SessionRun) : SessionRun :=
  { s with stats :=
      { s.stats with pipesActive := (s.stats.pipesActive + 1) % U32 } }

/-- Exit of `pipe`: the deferred calls run in LIFO order once `io.Copy`
returns — `w.Close()`, `r.Close()` (together closing both sockets of the
session, whichever direction this pipe copies), then
`atomic.AddUint32(&globalStats.pipesActive, ^uint32(0))`, i.e. adding
`2^32 - 1`, the uint32 decrement. -/
def pipeExit (s : SessionRun) : SessionRun :=
  { s with
      localOpen := false
      remoteOpen := false
      stats :=
        { s.stats with
            pipesActive := (s.stats.pipesActive + (U32 - 1)) % U32 } }

/-- Embedding of `pipe(r, w)`: increment the active-pipe counter, run
`io.Copy` to completion (its end-of-stream or error result is discarded),
then the deferred closes and the deferred decrement run unconditionally. -/
def pipeRun (o : CopyOutcome) (s : SessionRun) : SessionRun :=
  match o with
  | .eof => pipeExit (pipeEnter s)
  | .copyErr => pipeExit (pipeEnter s)

/-- The connect timeout of the `net.Dialer` in `proxy`, in seconds. -/
def proxyDialTimeoutSeconds : Nat := 3

/-- Embedding of `proxy(local, remoteAddr)` followed by its two copy tasks:
one dial with the 3-second timeout; on dial failure log the error, close
the client socket and return (no retry, no other node dialed); on success
start the two pipes, modelled here at their completion. -/
def proxyRun (a : TCPAddr) (dial : DialOutcome) (o1 o2 : CopyOutcome)
    (s : SessionRun) : SessionRun :=
  match dial with
  | .fail =>
    { s with
        dialedAddr := some a
        dialAttempts := s.dialAttempts + 1
        localOpen := false
        logs := s.logs ++ [.printf .dialError] }
  | .ok =>
    let s1 := { s with
        dialedAddr := some a
        dialAttempts := s.dialAttempts + 1
        remoteOpen := true
        pipesStarted := s.pipesStarted + 2 }
    pipeRun o2 (pipeRun o1 s1)

/-- Embedding of the accept-handling body of `ServePort`: under the read
lock, if a master address is published, atomically increment
`connectionsProxied` and dispatch `proxy` (modelled to completion);
otherwise close the accepted connection at once. -/
def serveConn (masterAddr : Option TCPAddr) (dial : DialOutcome)
    (o1 o2 : CopyOutcome) (s : SessionRun) : AcceptAction × SessionRun :=
  match masterAddr with
  | some a =>
    let s1 := { s with stats :=
        { s.stats with
            connectionsProxied := (s.stats.connectionsProxied + 1) % U64 } }
    (.dispatched a, proxyRun a dial o1 o2 s1)
  | none => (.closed, { s with localOpen := false })

/-- Result of the startup validation in `main`. -/
inductive StartupResult where
  | fatalExit (msg : String)
  | started (ports : List String) (nodesL : List String)
deriving DecidableEq, Repr

/-- Helper for `goSplit`: walk the characters, cutting at each separator;
`acc` holds the characters of the current field in reverse. -/
def goSplitAux (sep : Char) : List Char → List Char → List String
  | [], acc => [String.mk acc.reverse]
  | c :: t, acc =>
    if c == sep then String.mk acc.reverse :: goSplitAux sep t []
    else goSplitAux sep t (c :: acc)

/-- Mirrors Go `strings.Split(s, sep)` for a one-character separator: the
fields between separators, in order; a string of n separators yields n+1
fields, and fields may be empty. -/
def goSplit (s : String) (sep : Char) : List String :=
  goSplitAux sep s.data []

/-- Embedding of the startup validation of the flag-based revision of
`main`: reject an empty `-ports` or `-nodes` flag value, otherwise split
both on commas and serve the resulting entries as-is. -/
def mainValidateFlags (configPorts configNodes : String) : StartupResult :=
  if configPorts = "" then
    .fatalExit ("Must specify at least one listening port!")
  else if configNodes = "" then
    .fatalExit ("Must specify at least one redis node!")
  else
    .started (goSplit configPorts ',') (goSplit configNodes ',')

/-- Embedding of the startup validation of the YAML-config revision of
`main`: reject when `len(config.Ports) < 1` or `len(config.Nodes) < 1`,
otherwise serve the configured entries as-is. -/
def mainValidateConfig (ports nodesL : List String) : StartupResult :=
  if ports.length < 1 then
    .fatalExit ("Must specify at least one listening port!")
  else if nodesL.length < 1 then
    .fatalExit ("Must specify at least one redis node!")
  else
    .started ports nodesL

/-- Is this log call a non-fatal `log.Printf`-family call? -/
def isPrintfLog : LogCall → Bool
  | .printf _ => true
  | .fatalf _ => false

/-- A concrete address used in the concrete-input theorems below. -/
def addrA : TCPAddr := ⟨[10, 0, 0, 1], 6379⟩

/-- A concrete address used in the concrete-input theorems below. -/
def addrB : TCPAddr := ⟨[10, 0, 0, 2], 6379⟩

/-- A probe world where every dial fails. -/
def worldFail : ProbeWorld := fun _ _ => .dialErr

/-- A probe world where every node accepts the connection, the single read
returns the bytes `role:master` together with a read error. -/
def worldReadErrMaster : ProbeWorld :=
  fun _ _ => .conn ⟨"role:master", true, addrA⟩

/-- The reply of a node whose read fails after delivering a non-master
reply. -/
def prReadErrSlave : ProbeReply := ⟨"role:slave", true, addrA⟩

/-- A probe world where every node accepts the connection, and the single
read returns the bytes of `prReadErrSlave` together with a read error. -/
def worldReadErrSlave : ProbeWorld := fun _ _ => .conn prReadErrSlave

/-- A probe world where every node replies with bytes containing both the
`-NOAUTH` marker and the `role:master` marker. -/
def worldNoauthMaster : ProbeWorld :=
  fun _ _ => .conn ⟨"-NOAUTH role:master", false, addrB⟩

/-- `getMasterAddr` returns the address carried by the first candidate
whose outcome answers as master. -/
theorem gm_addr_eq (world : ProbeWorld) (port : String) (t : Nat) :
    ∀ nodesL : List String,
      (getMasterAddr world port t nodesL).addr =
        ((nodesL.find? fun n => isMasterOutcome (world t n)).bind
          fun n => outcomeAddr (world t n)) := by
  intro nodesL
  induction nodesL with
  | nil => simp [getMasterAddr]
  | cons node rest ih =>
    cases hw : world t node with
    | dialErr =>
      simp [getMasterAddr, hw, List.find?_cons, isMasterOutcome, ih]
    | conn pr =>
      by_cases hc : containsSub pr.reply roleMasterMarker
      · simp [getMasterAddr, hw, List.find?_cons, isMasterOutcome, hc,
          outcomeAddr]
      · simp [getMasterAddr, hw, List.find?_cons, isMasterOutcome, hc, ih]

/-- `getMasterAddr` dials exactly the candidates up to and including the
first one that answers as master. -/
theorem gm_probed_eq (world : ProbeWorld) (port : String) (t : Nat) :
    ∀ nodesL : List String,
      (getMasterAddr world port t nodesL).probed =
        (nodesL.takeWhile fun n => !isMasterOutcome (world t n)) ++
          (nodesL.find? fun n => isMasterOutcome (world t n)).toList := by
  intro nodesL
  induction nodesL with
  | nil => simp [getMasterAddr]
  | cons node rest ih =>
    cases hw : world t node with
    | dialErr =>
      simp [getMasterAddr, hw, List.find?_cons, List.takeWhile_cons,
        isMasterOutcome, ih]
    | conn pr =>
      by_cases hc : containsSub pr.reply roleMasterMarker
      · simp [getMasterAddr, hw, List.find?_cons, List.takeWhile_cons,
          isMasterOutcome, hc]
      · simp [getMasterAddr, hw, List.find?_cons, List.takeWhile_cons,
          isMasterOutcome, hc, ih]

/-- Every log call made by `getMasterAddr` is a non-fatal `log.Printf`. -/
theorem gm_logs_nonfatal (world : ProbeWorld) (port : String) (t : Nat) :
    ∀ nodesL : List String,
      ((getMasterAddr world port t nodesL).logs.all isPrintfLog) = true := by
  intro nodesL
  induction nodesL with
  | nil => simp [getMasterAddr]
  | cons node rest ih =>
    cases hw : world t node with
    | dialErr => simp [getMasterAddr, hw, isPrintfLog, ih]
    | conn pr =>
      by_cases hm : containsSub pr.reply roleMasterMarker <;>
        by_cases hr : pr.readErr <;>
        by_cases ha : containsSub pr.reply noAuthMarker <;>
        simp [getMasterAddr, hw, hm, hr, ha, isPrintfLog, ih, List.all_append]

/-- Every log call made on the forwarded-connection path is a non-fatal
`log.Printf`/`log.Println`. -/
theorem serve_logs_nonfatal (a : TCPAddr) (dial : DialOutcome)
    (o1 o2 : CopyOutcome) (stats : Stats) :
    ((serveConn (some a) dial o1 o2 (mkSession stats)).2.logs.all isPrintfLog)
      = true := by
  cases dial <;> cases o1 <;> cases o2 <;>
    simp [serveConn, proxyRun, pipeRun, pipeEnter, pipeExit, mkSession,
      isPrintfLog]

/-- The published address never changes relative to itself. -/
theorem addrChanged_self (a : TCPAddr) : addrChanged (some a) a = false := by
  simp [addrChanged]

/-- `countChanging` distributes over log concatenation. -/
theorem countChanging_append (l1 l2 : List LogCall) :
    countChanging (l1 ++ l2) = countChanging l1 + countChanging l2 := by
  simp [countChanging, List.filter_append]

/-- Polls that keep determining the already published address emit no
"Changing master" lines. -/
theorem pollRun_stable (port : String) (a : TCPAddr) :
    ∀ N,
      countChanging (pollRun port (some a) (List.replicate N (some a))).2
        = 0 := by
  intro N
  induction N with
  | zero => simp [pollRun, countChanging]
  | succ n ih =>
    simp only [List.replicate_succ, pollRun, publishStep, addrChanged_self,
      if_false, List.nil_append]
    exact ih

/-- Claim C1: for every configured candidate list and every assignment of
probe replies, `getMasterAddr` probes candidates in configured order and
returns the resolved address of the first candidate whose reply contains
`role:master`, without probing any later candidate; in particular, when
two candidates both reply with the master marker, the one listed first is
selected (the returned address is the one of `List.find?`, the first
match, and the dialed-node trace stops at that candidate). -/
theorem getMasterAddr_selects_first_master (world : ProbeWorld)
    (port : String) (t : Nat) (nodesL : List String) :
    (getMasterAddr world port t nodesL).addr =
      ((nodesL.find? fun n => isMasterOutcome (world t n)).bind
        fun n => outcomeAddr (world t n)) ∧
    (getMasterAddr world port t nodesL).probed =
      (nodesL.takeWhile fun n => !isMasterOutcome (world t n)) ++
        (nodesL.find? fun n => isMasterOutcome (world t n)).toList :=
  ⟨gm_addr_eq world port t nodesL, gm_probed_eq world port t nodesL⟩

/-- Claim C2: each `followMaster` determination runs at most 3 sequential
election cycles, cycle n calling `getMasterAddr` with timeout n seconds;
it stops as soon as a cycle returns a master address, and only when all 3
cycles return nil does the poll publish the empty (Searching) address. -/
theorem followMaster_three_escalating_attempts (world : ProbeWorld)
    (port : String) (nodesL : List String) (prev : Option TCPAddr) :
    (determineMaster world port nodesL =
      match (getMasterAddr world port 1 nodesL).addr with
      | some a => (some a, [1])
      | none =>
        match (getMasterAddr world port 2 nodesL).addr with
        | some a => (some a, [1, 2])
        | none => ((getMasterAddr world port 3 nodesL).addr, [1, 2, 3])) ∧
    ((getMasterAddr world port 1 nodesL).addr = none →
      (getMasterAddr world port 2 nodesL).addr = none →
      (getMasterAddr world port 3 nodesL).addr = none →
      (followPoll world port nodesL prev).1 = none) := by
  have heq : determineMaster world port nodesL =
      match (getMasterAddr world port 1 nodesL).addr with
      | some a => (some a, [1])
      | none =>
        match (getMasterAddr world port 2 nodesL).addr with
        | some a => (some a, [1, 2])
        | none => ((getMasterAddr world port 3 nodesL).addr, [1, 2, 3]) := by
    cases h1 : (getMasterAddr world port 1 nodesL).addr with
    | some a => simp [determineMaster, attemptLoop, h1]
    | none =>
      cases h2 : (getMasterAddr world port 2 nodesL).addr with
      | some a => simp [determineMaster, attemptLoop, h1, h2]
      | none =>
        cases h3 : (getMasterAddr world port 3 nodesL).addr with
        | some a => simp [determineMaster, attemptLoop, h1, h2, h3]
        | none => simp [determineMaster, attemptLoop, h1, h2, h3]
  refine ⟨heq, fun h1 h2 h3 => ?_⟩
  simp [followPoll, heq, h1, h2, h3, publishStep]

/-- Witness for C2: in a world where every dial fails, all three cycles
come back empty and the poll publishes the Searching (nil) address. -/
theorem followMaster_three_escalating_attempts_witness :
    (followPoll worldFail ("6379") ["n1"] none).1 = none :=
  (followMaster_three_escalating_attempts worldFail ("6379") ["n1"] none).2
    (by decide) (by decide) (by decide)

/-- Claim C3: a connection accepted while no master address is published
is closed immediately: no downstream dial is attempted (zero dial
attempts, nothing dialed), the client socket ends closed, and the global
counters, in particular the cumulative-proxied counter, are unchanged —
for every would-be dial or copy outcome. -/
theorem serveConn_searching_closes_without_dial (stats : Stats)
    (dial : DialOutcome) (o1 o2 : CopyOutcome) :
    (serveConn none dial o1 o2 (mkSession stats)).1 = .closed ∧
    (serveConn none dial o1 o2 (mkSession stats)).2.dialAttempts = 0 ∧
    (serveConn none dial o1 o2 (mkSession stats)).2.dialedAddr = none ∧
    (serveConn none dial o1 o2 (mkSession stats)).2.localOpen = false ∧
    (serveConn none dial o1 o2 (mkSession stats)).2.stats = stats := by
  simp [serveConn, mkSession]

/-- Counterexample to claim C4 as stated: when the single `conn.Read`
returns an error together with bytes that already contain `role:master`
(Go readers may return data and an error from one call), `getMasterAddr`
logs the read failure but still returns that node as master — the node is
not treated as "not master". -/
theorem read_failure_master_reply_counterexample :
    (getMasterAddr worldReadErrMaster ("6379") 1 ["nodeA"]).addr
        = some addrA ∧
      LogCall.printf (.cantRead ("nodeA")) ∈
        (getMasterAddr worldReadErrMaster ("6379") 1 ["nodeA"]).logs := by
  decide

/-- Claim C4 as amended: a failure to read the probe reply from a node
that accepted the probe connection is logged, never terminates the
process, and the bytes already received are still classified — so the
node is treated as "not master" for that node only, unless those bytes
already contain `role:master`; moreover no log call in probing, dialing
or proxying is fatal. -/
theorem read_failure_logged_nonfatal (world : ProbeWorld) (port : String)
    (t : Nat) (node : String) (rest : List String) (pr : ProbeReply)
    (hconn : world t node = .conn pr) (hre : pr.readErr = true) :
    LogCall.printf (.cantRead node) ∈
      (getMasterAddr world port t (node :: rest)).logs ∧
    (containsSub pr.reply roleMasterMarker = false →
      (getMasterAddr world port t (node :: rest)).addr =
        (getMasterAddr world port t rest).addr) ∧
    (∀ ns : List String,
      ((getMasterAddr world port t ns).logs.all isPrintfLog) = true) ∧
    (∀ (a : TCPAddr) (dial : DialOutcome) (o1 o2 : CopyOutcome)
        (stats : Stats),
      ((serveConn (some a) dial o1 o2 (mkSession stats)).2.logs.all
          isPrintfLog) = true) := by
  refine ⟨?_, fun hm => ?_, gm_logs_nonfatal world port t,
    fun a dial o1 o2 stats => serve_logs_nonfatal a dial o1 o2 stats⟩
  · by_cases hm : containsSub pr.reply roleMasterMarker <;>
      simp [getMasterAddr, hconn, hre, hm]
  · simp [getMasterAddr, hconn, hm]

/-- Witness for amended C4: a node whose read fails after delivering a
`role:slave` reply is logged, skipped, and every emitted log call is
non-fatal. -/
theorem read_failure_logged_nonfatal_witness :
    worldReadErrSlave 1 ("nodeA") = .conn prReadErrSlave ∧
    prReadErrSlave.readErr = true ∧
    LogCall.printf (.cantRead ("nodeA")) ∈
      (getMasterAddr worldReadErrSlave ("6379") 1 ["nodeA"]).logs ∧
    (getMasterAddr worldReadErrSlave ("6379") 1 ["nodeA"]).addr =
      (getMasterAddr worldReadErrSlave ("6379") 1 []).addr ∧
    ((getMasterAddr worldReadErrSlave ("6379") 1 ["nodeA"]).logs.all
        isPrintfLog) = true ∧
    ((serveConn (some addrA) .fail .eof .eof
          (mkSession ⟨0, 0⟩)).2.logs.all isPrintfLog) = true := by
  have h := read_failure_logged_nonfatal worldReadErrSlave ("6379") 1
    ("nodeA") [] prReadErrSlave (by decide) (by decide)
  exact ⟨by decide, by decide, h.1, h.2.1 (by decide), h.2.2.1 ["nodeA"],
    h.2.2.2 addrA .fail .eof .eof ⟨0, 0⟩⟩

/-- Claim C5: a "Changing master" line is emitted by a poll exactly when
the newly determined address is present and differs from the previously
published one by IP bytes or port, or the previous one was absent; and
N+1 consecutive polls determining the same non-empty address emit no more
such lines than the first poll alone (zero additional lines), the first
emitting at most one. -/
theorem changing_master_logged_iff_changed (port : String)
    (prev na : Option TCPAddr) (N : Nat) (a : TCPAddr) :
    (((publishStep port prev na).2.any isChangingLog = true) ↔
      ∃ x, na = some x ∧
        (prev = none ∨
          ∃ p, prev = some p ∧ (p.ip ≠ x.ip ∨ p.port ≠ x.port))) ∧
    countChanging (pollRun port prev (List.replicate (N + 1) (some a))).2 =
      countChanging (publishStep port prev (some a)).2 ∧
    countChanging (publishStep port prev (some a)).2 ≤ 1 := by
  refine ⟨?_, ?_, ?_⟩
  · cases na with
    | none => simp [publishStep, isChangingLog]
    | some x =>
      cases prev with
      | none => simp [publishStep, addrChanged, isChangingLog]
      | some p =>
        by_cases hip : p.ip = x.ip
        · by_cases hpt : p.port = x.port
          · simp [publishStep, addrChanged, isChangingLog, hip, hpt]
          · simp [publishStep, addrChanged, isChangingLog, hip, hpt]
        · simp [publishStep, addrChanged, isChangingLog, hip]
  · have hun : (pollRun port prev (some a :: List.replicate N (some a))).2 =
        (publishStep port prev (some a)).2 ++
          (pollRun port (publishStep port prev (some a)).1
            (List.replicate N (some a))).2 := rfl
    have hfst : (publishStep port prev (some a)).1 = some a := by
      simp [publishStep]
    rw [List.replicate_succ, hun, countChanging_append, hfst, pollRun_stable]
    omega
  · cases prev with
    | none => simp [publishStep, addrChanged, countChanging, isChangingLog]
    | some p =>
      by_cases hc : addrChanged (some p) a <;>
        simp [publishStep, hc, countChanging, isChangingLog]

/-- Witness for C5: five consecutive polls that all determine `addrA`,
starting from no published master, log the change exactly once. -/
theorem changing_master_logged_iff_changed_witness :
    countChanging
        (pollRun ("6379") none (List.replicate 5 (some addrA))).2 = 1 := by
  have h :=
    (changing_master_logged_iff_changed ("6379") none (some addrA) 4
      addrA).2.1
  exact h.trans (by decide)

/-- Claim C6: every copy task increments the active-pipe counter on entry
and, on every exit path — end of stream or a copy error alike — closes
both session sockets and decrements the counter; hence a single completed
pipe, and in particular both directions of a session one after the other,
leave both sockets closed and the active-pipe counter at its pre-session
value (uint32 arithmetic, value below 2^32). -/
theorem pipe_closes_both_and_restores_counter (o o1 o2 : CopyOutcome)
    (s : SessionRun) (h : s.stats.pipesActive < U32) :
    ((pipeEnter s).stats.pipesActive = (s.stats.pipesActive + 1) % U32) ∧
    ((pipeRun o s).localOpen = false) ∧
    ((pipeRun o s).remoteOpen = false) ∧
    ((pipeRun o s).stats.pipesActive = s.stats.pipesActive) ∧
    ((pipeRun o2 (pipeRun o1 s)).localOpen = false) ∧
    ((pipeRun o2 (pipeRun o1 s)).remoteOpen = false) ∧
    ((pipeRun o2 (pipeRun o1 s)).stats.pipesActive
      = s.stats.pipesActive) := by
  have key : ∀ x : Nat, x < U32 → ((x + 1) % U32 + (U32 - 1)) % U32 = x := by
    intro x hx
    simp only [U32] at *
    omega
  cases o <;> cases o1 <;> cases o2 <;>
    simp [pipeRun, pipeEnter, pipeExit, key s.stats.pipesActive h]

/-- Witness for C6: a fresh session with zeroed counters, one direction
ending in end-of-stream and the other in a copy error, ends with both
sockets closed and the counter restored. -/
theorem pipe_closes_both_and_restores_counter_witness :
    (mkSession ⟨0, 0⟩).stats.pipesActive < U32 ∧
    ((pipeEnter (mkSession ⟨0, 0⟩)).stats.pipesActive =
      ((mkSession ⟨0, 0⟩).stats.pipesActive + 1) % U32) ∧
    ((pipeRun .eof (mkSession ⟨0, 0⟩)).localOpen = false) ∧
    ((pipeRun .eof (mkSession ⟨0, 0⟩)).remoteOpen = false) ∧
    ((pipeRun .eof (mkSession ⟨0, 0⟩)).stats.pipesActive =
      (mkSession ⟨0, 0⟩).stats.pipesActive) ∧
    ((pipeRun .copyErr (pipeRun .eof (mkSession ⟨0, 0⟩))).localOpen
      = false) ∧
    ((pipeRun .copyErr (pipeRun .eof (mkSession ⟨0, 0⟩))).remoteOpen
      = false) ∧
    ((pipeRun .copyErr (pipeRun .eof (mkSession ⟨0, 0⟩))).stats.pipesActive
      = (mkSession ⟨0, 0⟩).stats.pipesActive) := by
  refine ⟨by decide, ?_⟩
  exact pipe_closes_both_and_restores_counter .eof .eof .copyErr
    (mkSession ⟨0, 0⟩) (by decide)

/-- Claim C7: every connection accepted while a master address is
published is dispatched and increments the cumulative-proxied counter by
exactly one (mod 2^64), whatever the later dial and copy outcomes are;
connections accepted in the Searching state leave the counter unchanged. -/
theorem forwarded_connection_counted_once (a : TCPAddr) (stats : Stats)
    (dial : DialOutcome) (o1 o2 : CopyOutcome) :
    (serveConn (some a) dial o1 o2 (mkSession stats)).1 = .dispatched a ∧
    (serveConn (some a) dial o1 o2
        (mkSession stats)).2.stats.connectionsProxied
      = (stats.connectionsProxied + 1) % U64 ∧
    (serveConn none dial o1 o2
        (mkSession stats)).2.stats.connectionsProxied
      = stats.connectionsProxied := by
  cases dial <;> cases o1 <;> cases o2 <;>
    simp [serveConn, proxyRun, pipeRun, pipeEnter, pipeExit, mkSession]

/-- Counterexample to claim C8 as stated: a reply containing both markers,
`-NOAUTH` and `role:master`, is classified as master and produces no
authentication warning — the `role:master` check runs first and returns —
so "a reply containing -NOAUTH produces a warning and is not master" fails
on this input. -/
theorem noauth_with_master_marker_counterexample :
    (getMasterAddr worldNoauthMaster ("6379") 1 ["nodeA"]).addr
        = some addrB ∧
      LogCall.printf (.noauthWarn ("nodeA") ("6379")) ∉
        (getMasterAddr worldNoauthMaster ("6379") 1 ["nodeA"]).logs := by
  decide

/-- Claim C8 as amended: the probe classifies a reply by substring search
in order — a reply containing `role:master` confirms the node as master
(and logs no authentication warning even if `-NOAUTH` is also present); a
reply containing `-NOAUTH` but not `role:master` logs the distinguishable
authentication warning and is treated as not master, not as a transport
failure; any other reply is not master without the warning. -/
theorem probe_reply_classification (reply : String) (re : Bool)
    (a : TCPAddr) (node port : String) (t : Nat) :
    (containsSub reply roleMasterMarker = true →
      (getMasterAddr (fun _ _ => .conn ⟨reply, re, a⟩) port t [node]).addr
          = some a ∧
        ∀ n p, LogCall.printf (.noauthWarn n p) ∉
          (getMasterAddr (fun _ _ => .conn ⟨reply, re, a⟩) port t
              [node]).logs) ∧
    (containsSub reply roleMasterMarker = false →
      containsSub reply noAuthMarker = true →
      (getMasterAddr (fun _ _ => .conn ⟨reply, re, a⟩) port t [node]).addr
          = none ∧
        LogCall.printf (.noauthWarn node port) ∈
          (getMasterAddr (fun _ _ => .conn ⟨reply, re, a⟩) port t
              [node]).logs) ∧
    (containsSub reply roleMasterMarker = false →
      containsSub reply noAuthMarker = false →
      (getMasterAddr (fun _ _ => .conn ⟨reply, re, a⟩) port t [node]).addr
          = none ∧
        ∀ n p, LogCall.printf (.noauthWarn n p) ∉
          (getMasterAddr (fun _ _ => .conn ⟨reply, re, a⟩) port t
              [node]).logs) := by
  refine ⟨fun hm => ?_, fun hm ha => ?_, fun hm ha => ?_⟩
  · cases re <;> simp [getMasterAddr, hm]
  · cases re <;> simp [getMasterAddr, hm, ha]
  · cases re <;> simp [getMasterAddr, hm, ha]

/-- Witness for amended C8: a reply carrying only the `-NOAUTH` marker is
not master and logs the authentication warning. -/
theorem probe_reply_classification_witness :
    containsSub ("-NOAUTH wrong password") roleMasterMarker = false ∧
    containsSub ("-NOAUTH wrong password") noAuthMarker = true ∧
    (getMasterAddr
        (fun _ _ => .conn ⟨"-NOAUTH wrong password", false, addrA⟩)
        ("6379") 1 ["nodeA"]).addr = none ∧
    LogCall.printf (.noauthWarn ("nodeA") ("6379")) ∈
      (getMasterAddr
          (fun _ _ => .conn ⟨"-NOAUTH wrong password", false, addrA⟩)
          ("6379") 1 ["nodeA"]).logs := by
  have h := (probe_reply_classification ("-NOAUTH wrong password") false
    addrA ("nodeA") ("6379") 1).2.1 (by decide) (by decide)
  exact ⟨by decide, by decide, h.1, h.2⟩

/-- Claim C9: the forwarder dials the elected master with a 3-second
connect timeout; on dial failure exactly the affected client connection is
closed and the session abandoned — no outbound socket, no copy task, a
single dial attempt aimed only at the elected address (no retry, no
fallback).  The elector state is not touched: `proxy` only reads the
address it was handed. -/
theorem dial_failure_closes_only_client (a : TCPAddr) (stats : Stats)
    (o1 o2 : CopyOutcome) :
    proxyDialTimeoutSeconds = 3 ∧
    (serveConn (some a) .fail o1 o2 (mkSession stats)).2.localOpen
      = false ∧
    (serveConn (some a) .fail o1 o2 (mkSession stats)).2.remoteOpen
      = false ∧
    (serveConn (some a) .fail o1 o2 (mkSession stats)).2.pipesStarted
      = 0 ∧
    (serveConn (some a) .fail o1 o2 (mkSession stats)).2.dialAttempts
      = 1 ∧
    (serveConn (some a) .fail o1 o2 (mkSession stats)).2.dialedAddr
      = some a := by
  simp [serveConn, proxyRun, mkSession, proxyDialTimeoutSeconds]

/-- Claim C10: startup validation rejects exactly a configuration whose
ports or nodes list is empty; lists containing empty-string entries pass
both checks and the process proceeds to serve those entries as-is, and in
the flag-based revision a comma-only ports value splits into two
empty-string ports that are then served. -/
theorem startup_validation_rejects_only_empty_lists
    (ports nodesL : List String) (cp cn : String) :
    ((∃ m, mainValidateConfig ports nodesL = .fatalExit m) ↔
      (ports = [] ∨ nodesL = [])) ∧
    (ports ≠ [] → nodesL ≠ [] →
      mainValidateConfig ports nodesL = .started ports nodesL) ∧
    ((∃ m, mainValidateFlags cp cn = .fatalExit m) ↔
      (cp = "" ∨ cn = "")) ∧
    (mainValidateFlags (",") ("node1") = .started ["", ""] ["node1"]) := by
  refine ⟨?_, ?_, ?_, by decide⟩
  · by_cases hp : ports = []
    · simp [mainValidateConfig, hp]
    · by_cases hn : nodesL = []
      · simp [mainValidateConfig, hp, hn, List.length_eq_zero,
          Nat.lt_one_iff]
      · simp [mainValidateConfig, hp, hn, List.length_eq_zero,
          Nat.lt_one_iff]
  · intro hp hn
    simp [mainValidateConfig, hp, hn, List.length_eq_zero, Nat.lt_one_iff]
  · by_cases hp : cp = ""
    · simp [mainValidateFlags, hp]
    · by_cases hn : cn = ""
      · simp [mainValidateFlags, hp, hn]
      · simp [mainValidateFlags, hp, hn]

/-- Witness for C10: a ports list made of two empty strings and a nodes
list made of one empty string pass validation unchanged. -/
theorem startup_validation_rejects_only_empty_lists_witness :
    (["", ""] : List String) ≠ [] ∧ ([""] : List String) ≠ [] ∧
    mainValidateConfig ["", ""] [""] = .started ["", ""] [""] := by
  have h := (startup_validation_rejects_only_empty_lists ["", ""] [""]
    (",") ("x")).2.1 (by decide) (by decide)
  exact ⟨by decide, by decide, h⟩

end RGTM
